import Mathlib

/-!
Shallow embedding of the portfolio-tracker valuation engine.

Numbers are modelled as rationals (JS numeric arithmetic read as exact
arithmetic), JS `null`/`undefined` fields as `Option`, and the price cache
`Map` as a function `String → Option PriceRow`.  `Math.round x` is modelled
as `round x = ⌊x + 1/2⌋` (round half toward +∞, as in JS) and
`+(x).toFixed(2)` as rounding to the nearest multiple of 1/100.
All definitions are translated from the application source:
`calcPL`, `groupTotals`, `normalizeAssets`, the `applyCache` price
application, the `derivedAssets` ledger derivation, and the growth
`projection`.
-/

namespace Portfolio

/-- Transaction kinds, as constrained by the `transactions` table schema
(`type ∈ {buy, sell, dividend, fee}`). -/
inductive TxType where
  | buy
  | sell
  | dividend
  | fee
deriving DecidableEq, Repr

/-- A ledger entry (row of the `transactions` table as used by the engine). -/
structure Tx where
  id : String
  asset_id : String
  sub_asset_id : Option String
  type : TxType
  amount_thb : Option ℚ
  amount_usd : Option ℚ
  units : Option ℚ
  qty : Option ℚ
deriving DecidableEq, Repr

/-- A holding inside a stock-group asset. -/
structure SubAsset where
  id : String
  currency : String
  invested : ℚ
  investedUSD : Option ℚ
  currentValue : ℚ
  qty : ℚ
  yahooSymbol : Option String
  priceDate : Option String
  priceUpdatedAt : Option String
deriving DecidableEq, Repr

/-- A top-level portfolio asset. -/
structure Asset where
  id : String
  type : String
  currency : String
  isSpeculative : Bool
  invested : ℚ
  investedUSD : Option ℚ
  currentValue : ℚ
  units : ℚ
  finnomenaCode : Option String
  navUpdatedAt : Option String
  subAssets : List SubAsset
deriving DecidableEq, Repr

/-- A row of the `price_cache` table, as consumed by the engine. -/
structure PriceRow where
  price : ℚ
  price_date : Option String
  updated_at : String
deriving DecidableEq, Repr

/-- The price cache handed to `applyCache`: a `Map` from symbol to row. -/
def Cache : Type := String → Option PriceRow

/-- Leading and trailing whitespace removal on a character list. -/
def trimChars (cs : List Char) : List Char :=
  ((cs.dropWhile Char.isWhitespace).reverse.dropWhile Char.isWhitespace).reverse

/-- Executable model of JS `String.prototype.trim`. -/
def trimStr (s : String) : String := ⟨trimChars s.data⟩

/-- The truthiness test `code?.trim()` used by the source before a cache
lookup: a binding exists exactly when the field is present and its trimmed
form is non-empty; the trimmed code is what is looked up. -/
def normCode : Option String → Option String
  | none => none
  | some s => if trimStr s = "" then none else some (trimStr s)

/-- Rounding to 2 decimal places, modelling `+(x).toFixed(2)`. -/
def round2 (q : ℚ) : ℚ := (round (q * 100) : ℚ) / 100

/-- The source's `STOCK_GROUP_TYPES = new Set(["thai_stocks", "us_stocks"])`. -/
def STOCK_GROUP_TYPES : List String := ["thai_stocks", "us_stocks"]

/-- Result shape of `calcPL`: `{ pl, plPct }`. -/
structure PLResult where
  pl : ℚ
  plPct : ℚ
deriving DecidableEq, Repr

/-- The source's `calcPL(a)`:
`if (a.isSpeculative || a.invested === 0) return { pl: cv-inv, plPct: 0 };`
otherwise `plPct = (pl / a.invested) * 100`. -/
def calcPL (a : Asset) : PLResult :=
  if a.isSpeculative ∨ a.invested = 0 then
    { pl := a.currentValue - a.invested, plPct := 0 }
  else
    let pl := a.currentValue - a.invested
    { pl := pl, plPct := pl / a.invested * 100 }

/-- The source's `groupTotals(asset)`: sums of `invested` and `currentValue` over
`asset.subAssets || []`. -/
def groupTotals (asset : Asset) : ℚ × ℚ :=
  (asset.subAssets.foldl (fun s x => s + x.invested) 0,
   asset.subAssets.foldl (fun s x => s + x.currentValue) 0)

/-- The per-asset body of `normalizeAssets`: a stock-group asset gets its
`invested`/`currentValue` replaced by `groupTotals`; others pass through. -/
def normalizeAsset (a : Asset) : Asset :=
  if a.type ∈ STOCK_GROUP_TYPES then
    { a with invested := (groupTotals a).1, currentValue := (groupTotals a).2 }
  else a

/-- The source's `normalizeAssets(assets) = assets.map(...)`. -/
def normalizeAssets (assets : List Asset) : List Asset :=
  assets.map normalizeAsset

/-- The per-sub-asset body of the cached-price application:
`if (!sub.yahooSymbol?.trim() || !cache.has(...)) return sub;` else update
`currentValue` (only when `qty > 0`), `priceDate` and `priceUpdatedAt`. -/
def applyCacheSub (cache : Cache) (sub : SubAsset) : SubAsset :=
  match (normCode sub.yahooSymbol).bind cache with
  | none => sub
  | some row =>
    { sub with
      currentValue := if sub.qty > 0 then round2 (sub.qty * row.price) else sub.currentValue,
      priceDate := row.price_date,
      priceUpdatedAt := some row.updated_at }

/-- The per-asset body of the cached-price application: the Finnomena
fund-code branch takes priority; otherwise a non-empty `subAssets` list is
mapped with `applyCacheSub`; otherwise the asset is returned unchanged. -/
def applyCacheAsset (cache : Cache) (a : Asset) : Asset :=
  match (normCode a.finnomenaCode).bind cache with
  | some row =>
    { a with
      currentValue := if a.units > 0 then round2 (a.units * row.price) else a.currentValue,
      navUpdatedAt := some row.updated_at }
  | none =>
    if a.subAssets.length > 0 then
      { a with subAssets := a.subAssets.map (applyCacheSub cache) }
    else a

/-- The price application `setAssets(prev => prev.map(a => ...))` over the loaded
cache. -/
def applyCache (assets : List Asset) (cache : Cache) : List Asset :=
  assets.map (applyCacheAsset cache)

/-- The filter `transactions.filter(t => t.asset_id === asset.id &&
!t.sub_asset_id && t.type === 'buy')`. -/
def buyTop (txs : List Tx) (assetId : String) : List Tx :=
  txs.filter fun t => t.asset_id == assetId && t.sub_asset_id == none && t.type == TxType.buy

/-- The filter `transactions.filter(t => t.asset_id === asset.id &&
t.sub_asset_id === sub.id && t.type === 'buy')`. -/
def buySub (txs : List Tx) (assetId subId : String) : List Tx :=
  txs.filter fun t =>
    t.asset_id == assetId && t.sub_asset_id == some subId && t.type == TxType.buy

/-- The sum `txs.reduce((s, t) => s + Number(t.amount_thb || 0), 0)`. -/
def sumThb (txs : List Tx) : ℚ := txs.foldl (fun s t => s + t.amount_thb.getD 0) 0

/-- The sum `txs.reduce((s, t) => s + Number(t.amount_usd || 0), 0)`. -/
def sumUsd (txs : List Tx) : ℚ := txs.foldl (fun s t => s + t.amount_usd.getD 0) 0

/-- The sum `txs.reduce((s, t) => s + Number(t.units || 0), 0)`. -/
def sumUnits (txs : List Tx) : ℚ := txs.foldl (fun s t => s + t.units.getD 0) 0

/-- The sum `txs.reduce((s, t) => s + Number(t.qty || 0), 0)`. -/
def sumQty (txs : List Tx) : ℚ := txs.foldl (fun s t => s + t.qty.getD 0) 0

/-- The per-sub-asset body of the ledger derivation: with no buy
transactions the sub-asset falls back to its manual fields; otherwise
`invested`, `investedUSD` (null unless the sub-asset's currency is USD)
and `qty` are overridden by ledger sums. -/
def deriveSub (txs : List Tx) (assetId : String) (sub : SubAsset) : SubAsset :=
  let subTxs := buySub txs assetId sub.id
  if subTxs.length = 0 then sub
  else
    { sub with
      invested := sumThb subTxs,
      investedUSD := if sub.currency = "USD" then some (sumUsd subTxs) else none,
      qty := sumQty subTxs }

/-- The per-asset body of `derivedAssets`: top-level buy transactions (if
any) override `invested`, `investedUSD` (only when the asset's currency is
USD) and `units` (only when a Finnomena fund code is configured); then a
non-empty `subAssets` list is mapped with `deriveSub`. -/
def deriveAsset (txs : List Tx) (asset : Asset) : Asset :=
  let assetTxs := buyTop txs asset.id
  let derived :=
    if assetTxs.length > 0 then
      { asset with
        invested := sumThb assetTxs,
        investedUSD :=
          if asset.currency = "USD" then some (sumUsd assetTxs) else asset.investedUSD,
        units :=
          if (normCode asset.finnomenaCode).isSome then sumUnits assetTxs else asset.units }
    else asset
  if derived.subAssets.length > 0 then
    { derived with subAssets := derived.subAssets.map (deriveSub txs asset.id) }
  else derived

/-- The source's `const derivedAssets = assets.map(asset => ...)`. -/
def derivedAssets (assets : List Asset) (txs : List Tx) : List Asset :=
  assets.map (deriveAsset txs)

/-- Deletion of a ledger entry by id:
`setTransactions(prev => prev.filter(t => t.id !== id))` — removing a
ledger entry by id. -/
def removeTx (txs : List Tx) (delId : String) : List Tx :=
  txs.filter fun t => !(t.id == delId)

/-- The internal running balance of the growth projection:
`bal = totalInvest` initially, then `bal = bal * 1.008 + settings.dca`
once per month. -/
def projBal (totalInvest dca : ℚ) : ℕ → ℚ
  | 0 => totalInvest
  | n + 1 => projBal totalInvest dca n * (1008 / 1000) + dca

/-- A point of the projection chart: `{ month, value: Math.round(bal) }`. -/
structure ProjPoint where
  month : String
  value : ℤ
deriving DecidableEq, Repr

/-- The source's `Array.from({ length: 13 }, (_, i) => { if (i > 0) bal = bal*1.008 +
settings.dca; return { month: i === 0 ? "Now" : ("M"+i), value:
Math.round(bal) }; })`. -/
def projection (totalInvest dca : ℚ) : List ProjPoint :=
  (List.range 13).map fun i =>
    { month := if i = 0 then "Now" else "M" ++ toString i,
      value := round (projBal totalInvest dca i) }

/-- The structural skeleton of an asset: its id together with the ordered
ids of its sub-assets. -/
def structureKey (a : Asset) : String × List String :=
  (a.id, a.subAssets.map (fun s => s.id))

/-! ### Sample values used by concrete witnesses and counterexamples -/

/-- A USD sub-asset with a Yahoo symbol binding. -/
def subW : SubAsset :=
  { id := "s1", currency := "USD", invested := 10, investedUSD := some 2,
    currentValue := 30, qty := 3, yahooSymbol := some "AAPL",
    priceDate := none, priceUpdatedAt := none }

/-- A Thai stock-group asset holding `subW`, with stale manual totals. -/
def groupW : Asset :=
  { id := "g1", type := "thai_stocks", currency := "THB", isSpeculative := false,
    invested := 999, investedUSD := none, currentValue := 777, units := 0,
    finnomenaCode := none, navUpdatedAt := none, subAssets := [subW] }

/-- A plain non-group, non-speculative asset. -/
def cashW : Asset :=
  { id := "c1", type := "cash", currency := "THB", isSpeculative := false,
    invested := 1000, investedUSD := none, currentValue := 1200, units := 0,
    finnomenaCode := none, navUpdatedAt := none, subAssets := [] }

/-- A speculative asset with zero invested and nonzero current value. -/
def specW : Asset :=
  { id := "sp", type := "crypto", currency := "THB", isSpeculative := true,
    invested := 0, investedUSD := none, currentValue := 500, units := 0,
    finnomenaCode := none, navUpdatedAt := none, subAssets := [] }

/-- A non-speculative asset whose stored invested is negative. -/
def negInvW : Asset :=
  { id := "neg", type := "cash", currency := "THB", isSpeculative := false,
    invested := -1, investedUSD := none, currentValue := 0, units := 0,
    finnomenaCode := none, navUpdatedAt := none, subAssets := [] }

/-- A buy transaction targeting `groupW` at top level. -/
def txBuyG : Tx :=
  { id := "t1", asset_id := "g1", sub_asset_id := none, type := TxType.buy,
    amount_thb := some 100, amount_usd := none, units := none, qty := none }

/-- A sell transaction targeting `groupW` at top level. -/
def txSellG : Tx :=
  { id := "t2", asset_id := "g1", sub_asset_id := none, type := TxType.sell,
    amount_thb := some (-40), amount_usd := none, units := none, qty := none }

/-- A dividend transaction targeting `groupW` at top level. -/
def txDivG : Tx :=
  { id := "t3", asset_id := "g1", sub_asset_id := none, type := TxType.dividend,
    amount_thb := some 5, amount_usd := none, units := none, qty := none }

/-- A fee transaction targeting `groupW` at top level. -/
def txFeeG : Tx :=
  { id := "t4", asset_id := "g1", sub_asset_id := none, type := TxType.fee,
    amount_thb := some 1, amount_usd := none, units := none, qty := none }

/-- A buy transaction targeting sub-asset `subW` of `groupW`. -/
def txBuyS : Tx :=
  { id := "t5", asset_id := "g1", sub_asset_id := some "s1", type := TxType.buy,
    amount_thb := some 70, amount_usd := some 2, units := none, qty := some 3 }

/-- A sample ledger mixing all four transaction kinds. -/
def txsW : List Tx := [txBuyG, txSellG, txDivG, txFeeG, txBuyS]

/-- A THB asset with manual `investedUSD` and `units` and no fund code. -/
def thbManualW : Asset :=
  { id := "m1", type := "fund", currency := "THB", isSpeculative := false,
    invested := 0, investedUSD := some 5, currentValue := 0, units := 7,
    finnomenaCode := none, navUpdatedAt := none, subAssets := [] }

/-- A buy transaction for `thbManualW` carrying USD amount and units. -/
def txBuyM : Tx :=
  { id := "tm", asset_id := "m1", sub_asset_id := none, type := TxType.buy,
    amount_thb := some 100, amount_usd := some 3, units := some 3, qty := none }

/-- A cached price row for the fund code "FFF". -/
def rowF : PriceRow := { price := 4, price_date := none, updated_at := "2024-01-01" }

/-- A cached price row for the market symbol "AAPL". -/
def rowA : PriceRow :=
  { price := 2, price_date := some "2024-01-02", updated_at := "2024-01-03" }

/-- A price cache holding the fund code "FFF" and the symbol "AAPL". -/
def cacheW : Cache := fun s =>
  if s = "FFF" then some rowF else if s = "AAPL" then some rowA else none

/-- A stock-group asset that also carries a fund code present in `cacheW`,
while its sub-asset `subW` has a symbol also present in `cacheW`. -/
def fundGroupW : Asset :=
  { id := "fg", type := "us_stocks", currency := "THB", isSpeculative := false,
    invested := 0, investedUSD := none, currentValue := 0, units := 0,
    finnomenaCode := some "FFF", navUpdatedAt := none, subAssets := [subW] }

/-- A sub-asset with no market-symbol binding. -/
def plainSubW : SubAsset :=
  { id := "s2", currency := "THB", invested := 20, investedUSD := none,
    currentValue := 25, qty := 2, yahooSymbol := none,
    priceDate := none, priceUpdatedAt := none }

/-! ### Frame lemmas for the ledger derivation -/

lemma deriveSub_id (txs : List Tx) (aid : String) (sub : SubAsset) :
    (deriveSub txs aid sub).id = sub.id := by
  unfold deriveSub
  by_cases h : (buySub txs aid sub.id).length = 0 <;> simp [h]

lemma deriveSub_currentValue (txs : List Tx) (aid : String) (sub : SubAsset) :
    (deriveSub txs aid sub).currentValue = sub.currentValue := by
  unfold deriveSub
  by_cases h : (buySub txs aid sub.id).length = 0 <;> simp [h]

lemma deriveAsset_id (txs : List Tx) (a : Asset) :
    (deriveAsset txs a).id = a.id := by
  unfold deriveAsset
  by_cases h : (buyTop txs a.id).length > 0 <;>
    by_cases h2 : a.subAssets.length > 0 <;> simp [h, h2]

lemma deriveAsset_currentValue (txs : List Tx) (a : Asset) :
    (deriveAsset txs a).currentValue = a.currentValue := by
  unfold deriveAsset
  by_cases h : (buyTop txs a.id).length > 0 <;>
    by_cases h2 : a.subAssets.length > 0 <;> simp [h, h2]

lemma deriveAsset_subAssets (txs : List Tx) (a : Asset) :
    (deriveAsset txs a).subAssets = a.subAssets.map (deriveSub txs a.id) := by
  unfold deriveAsset
  by_cases h : (buyTop txs a.id).length > 0 <;> by_cases h2 : a.subAssets.length > 0
  · simp [h, h2]
  · have h3 : a.subAssets = [] := List.eq_nil_of_length_eq_zero (by omega)
    simp [h, h2, h3]
  · simp [h, h2]
  · have h3 : a.subAssets = [] := List.eq_nil_of_length_eq_zero (by omega)
    simp [h, h2, h3]

/-! ### Frame and idempotence lemmas for the price-cache application -/

lemma applyCacheSub_id (cache : Cache) (sub : SubAsset) :
    (applyCacheSub cache sub).id = sub.id := by
  unfold applyCacheSub
  cases (normCode sub.yahooSymbol).bind cache <;> rfl

lemma applyCacheSub_idem (cache : Cache) (sub : SubAsset) :
    applyCacheSub cache (applyCacheSub cache sub) = applyCacheSub cache sub := by
  unfold applyCacheSub
  cases hm : (normCode sub.yahooSymbol).bind cache with
  | none => simp [hm]
  | some row =>
    simp only [hm]
    by_cases hq : sub.qty > 0 <;> simp [hq]

lemma applyCacheAsset_id (cache : Cache) (a : Asset) :
    (applyCacheAsset cache a).id = a.id := by
  unfold applyCacheAsset
  cases (normCode a.finnomenaCode).bind cache with
  | none => by_cases h : a.subAssets.length > 0 <;> simp [h]
  | some row => rfl

lemma applyCacheAsset_subIds (cache : Cache) (a : Asset) :
    (applyCacheAsset cache a).subAssets.map (fun s => s.id) =
      a.subAssets.map (fun s => s.id) := by
  unfold applyCacheAsset
  cases (normCode a.finnomenaCode).bind cache with
  | none =>
    by_cases h : a.subAssets.length > 0 <;>
      simp [h, List.map_map, Function.comp_def, applyCacheSub_id]
  | some row => rfl

lemma applyCacheAsset_idem (cache : Cache) (a : Asset) :
    applyCacheAsset cache (applyCacheAsset cache a) = applyCacheAsset cache a := by
  unfold applyCacheAsset
  cases hm : (normCode a.finnomenaCode).bind cache with
  | none =>
    by_cases h : a.subAssets.length > 0
    · simp only [hm, h, if_pos]
      have hlen : (a.subAssets.map (applyCacheSub cache)).length > 0 := by
        simpa using h
      simp only [hlen, if_pos, List.map_map]
      have hcomp : applyCacheSub cache ∘ applyCacheSub cache = applyCacheSub cache :=
        funext fun sub => applyCacheSub_idem cache sub
      simp [hcomp]
    · simp [hm, h]
  | some row =>
    simp only [hm]
    by_cases hu : a.units > 0 <;> simp [hu]

/-! ### Frame lemmas for group normalization -/

lemma normalizeAsset_id (a : Asset) : (normalizeAsset a).id = a.id := by
  unfold normalizeAsset
  by_cases h : a.type ∈ STOCK_GROUP_TYPES <;> simp [h]

lemma normalizeAsset_subAssets (a : Asset) :
    (normalizeAsset a).subAssets = a.subAssets := by
  unfold normalizeAsset
  by_cases h : a.type ∈ STOCK_GROUP_TYPES <;> simp [h]

/-- C8: The ledger-derivation step never changes `currentValue`: for every
asset and every sub-asset, `currentValue` after `derivedAssets` equals
`currentValue` before it, for every transaction set. -/
theorem derivation_preserves_currentValue (assets : List Asset) (txs : List Tx) :
    (derivedAssets assets txs).map (fun a => a.currentValue) =
      assets.map (fun a => a.currentValue) ∧
    (derivedAssets assets txs).map (fun a => a.subAssets.map (fun s => s.currentValue)) =
      assets.map (fun a => a.subAssets.map (fun s => s.currentValue)) := by
  constructor
  · simp [derivedAssets, List.map_map, Function.comp_def, deriveAsset_currentValue]
  · simp [derivedAssets, List.map_map, Function.comp_def, deriveAsset_subAssets,
      deriveSub_currentValue]

/-- C9: Price-cache application is idempotent: applying the same cache map
twice yields exactly the same asset state as applying it once. -/
theorem applyCache_idempotent (assets : List Asset) (cache : Cache) :
    applyCache (applyCache assets cache) cache = applyCache assets cache := by
  unfold applyCache
  rw [List.map_map]
  have hcomp : applyCacheAsset cache ∘ applyCacheAsset cache = applyCacheAsset cache :=
    funext fun a => applyCacheAsset_idem cache a
  rw [hcomp]

/-- C10: Every derivation step (`derivedAssets`, `applyCache`,
`normalizeAssets`) preserves the structure of the portfolio: same number of
assets, in the same order, with the same ids, and within each asset the
`subAssets` list keeps the same length, order, and sub-asset ids. -/
theorem pipeline_preserves_structure (assets : List Asset) (txs : List Tx) (cache : Cache) :
    (derivedAssets assets txs).length = assets.length ∧
    (applyCache assets cache).length = assets.length ∧
    (normalizeAssets assets).length = assets.length ∧
    (derivedAssets assets txs).map structureKey = assets.map structureKey ∧
    (applyCache assets cache).map structureKey = assets.map structureKey ∧
    (normalizeAssets assets).map structureKey = assets.map structureKey := by
  refine ⟨by simp [derivedAssets], by simp [applyCache], by simp [normalizeAssets], ?_, ?_, ?_⟩
  · simp [derivedAssets, List.map_map, Function.comp_def, structureKey,
      deriveAsset_id, deriveAsset_subAssets, deriveSub_id]
  · simp [applyCache, List.map_map, Function.comp_def, structureKey,
      applyCacheAsset_id, applyCacheAsset_subIds]
  · simp [normalizeAssets, List.map_map, Function.comp_def, structureKey,
      normalizeAsset_id, normalizeAsset_subAssets]

lemma groupTotals_normalizeAsset (a : Asset) :
    groupTotals (normalizeAsset a) = groupTotals a := by
  unfold groupTotals
  rw [normalizeAsset_subAssets]

/-- C5: `normalizeAssets` replaces a stock-group asset's `invested` and
`currentValue` with the sums over its `subAssets` (empty list giving sum 0);
every non-group asset passes through unchanged; consequently after
normalization a group parent's `invested`/`currentValue` equal the sum over
its own `subAssets`. -/
theorem normalize_group_totals (assets : List Asset) (g ng e : Asset)
    (hg : g.type ∈ STOCK_GROUP_TYPES) (hng : ng.type ∉ STOCK_GROUP_TYPES)
    (he : e.subAssets = []) :
    normalizeAssets assets = assets.map normalizeAsset ∧
    (normalizeAsset g).invested = (groupTotals g).1 ∧
    (normalizeAsset g).currentValue = (groupTotals g).2 ∧
    normalizeAsset ng = ng ∧
    groupTotals e = (0, 0) ∧
    (normalizeAsset g).invested = (groupTotals (normalizeAsset g)).1 ∧
    (normalizeAsset g).currentValue = (groupTotals (normalizeAsset g)).2 := by
  refine ⟨rfl, ?_, ?_, ?_, ?_, ?_, ?_⟩
  · simp [normalizeAsset, hg]
  · simp [normalizeAsset, hg]
  · simp [normalizeAsset, hng]
  · simp [groupTotals, he]
  · rw [groupTotals_normalizeAsset]; simp [normalizeAsset, hg]
  · rw [groupTotals_normalizeAsset]; simp [normalizeAsset, hg]

/-- Witness for C5 at concrete inputs: a Thai stock-group asset with one
sub-asset gets the sub-asset's totals; a cash asset passes through. -/
theorem normalize_group_totals_witness :
    groupW.type ∈ STOCK_GROUP_TYPES ∧ cashW.type ∉ STOCK_GROUP_TYPES ∧
    cashW.subAssets = [] ∧
    ((normalizeAsset groupW).invested = (groupTotals groupW).1 ∧
      normalizeAsset cashW = cashW ∧ groupTotals cashW = (0, 0)) :=
  ⟨by decide, by decide, rfl,
    (normalize_group_totals [groupW, cashW] groupW cashW cashW (by decide)
      (by decide) rfl).2.1,
    (normalize_group_totals [groupW, cashW] groupW cashW cashW (by decide)
      (by decide) rfl).2.2.2.1,
    (normalize_group_totals [groupW, cashW] groupW cashW cashW (by decide)
      (by decide) rfl).2.2.2.2.1⟩

/-- Counterexample for C6: a non-speculative asset with stored
`invested = -1` and `currentValue = 0` is not speculative and does not have
`invested > 0`, yet `calcPL` reports `plPct = -100 ≠ 0` — the code's guard
is `invested === 0`, not `invested > 0` as the claim states. -/
theorem calcPL_negative_invested_cex :
    negInvW.isSpeculative = false ∧ ¬ negInvW.invested > 0 ∧
    (calcPL negInvW).plPct = -100 ∧ (calcPL negInvW).plPct ≠ 0 := by
  refine ⟨rfl, by norm_num [negInvW], ?_, ?_⟩ <;> norm_num [calcPL, negInvW]

/-- C6 amended: `pl = currentValue - invested` always; `plPct = 0` exactly
when the asset is speculative or `invested = 0`; otherwise (including
negative invested) `plPct = pl / invested * 100`. -/
theorem calcPL_amended (a z n : Asset)
    (hz : z.isSpeculative = true ∨ z.invested = 0)
    (hn1 : n.isSpeculative = false) (hn2 : n.invested ≠ 0) :
    (calcPL a).pl = a.currentValue - a.invested ∧
    (calcPL z).plPct = 0 ∧
    (calcPL n).plPct = (n.currentValue - n.invested) / n.invested * 100 := by
  refine ⟨?_, ?_, ?_⟩
  · unfold calcPL
    by_cases h : a.isSpeculative = true ∨ a.invested = 0 <;> simp [h]
  · unfold calcPL
    simp [hz]
  · unfold calcPL
    simp [hn1, hn2]

/-- Witness for C6 at concrete inputs: the spec's own scenarios — a plain
asset with invested 1000 and currentValue 1200 gets `pl = 200`,
`plPct = 20`; a speculative asset with invested 0 and currentValue 500 gets
`plPct = 0`. -/
theorem calcPL_amended_witness :
    (specW.isSpeculative = true ∨ specW.invested = 0) ∧
    cashW.isSpeculative = false ∧ cashW.invested ≠ 0 ∧
    ((calcPL cashW).pl = cashW.currentValue - cashW.invested ∧
      (calcPL specW).plPct = 0 ∧
      (calcPL cashW).plPct = (cashW.currentValue - cashW.invested) / cashW.invested * 100) :=
  ⟨Or.inl rfl, rfl, by decide,
    calcPL_amended cashW specW cashW (Or.inl rfl) rfl (by decide)⟩

/-- Counterexample for C7: with a starting balance of 1/2 the month-0 point
of the projection carries value 1 (the balance passed through
`Math.round`), not the balance 1/2 unmodified. -/
theorem projection_rounding_cex :
    (projection (1/2) 100).head? = some { month := "Now", value := 1 } ∧
    ((1 : ℚ) ≠ 1/2) := by
  constructor
  · have h0 : round ((1 : ℚ)/2) = 1 := by rw [round_eq]; norm_num
    unfold projection
    rw [List.range_succ_eq_map, List.map_cons, List.head?_cons]
    simp [projBal, h0]
  · norm_num

/-- C7 amended: the projection has exactly 13 points; the internal balance
at month 0 is the starting balance unmodified and satisfies
`b(i+1) = b(i)*1.008 + dca` for months 1..12; each emitted point's value is
the balance rounded to the nearest integer (so the month-0 point is
`round totalInvest`); at balance 1000, dca 100 the month-1 balance and
point value are exactly 1108. -/
theorem projection_amended (totalInvest dca : ℚ) :
    (projection totalInvest dca).length = 13 ∧
    projBal totalInvest dca 0 = totalInvest ∧
    (∀ i : ℕ, i < 12 →
      projBal totalInvest dca (i + 1) = projBal totalInvest dca i * (1008 / 1000) + dca) ∧
    (projection totalInvest dca).head? = some { month := "Now", value := round totalInvest } ∧
    (∀ i : ℕ, i < 13 → (projection totalInvest dca).get? i =
      some { month := if i = 0 then "Now" else "M" ++ toString i,
             value := round (projBal totalInvest dca i) }) ∧
    projBal 1000 100 1 = 1108 ∧
    (projection 1000 100).get? 1 = some { month := "M1", value := 1108 } := by
  have h1 : projBal 1000 100 1 = 1108 := by norm_num [projBal]
  refine ⟨by simp [projection], rfl, fun i _ => rfl, ?_, ?_, h1, ?_⟩
  · unfold projection
    rw [List.range_succ_eq_map, List.map_cons, List.head?_cons]
    simp [projBal]
  · intro i hi
    rw [List.get?_eq_getElem?]
    simp [projection, List.getElem?_map, List.getElem?_range hi]
  · have hr : round ((1108 : ℚ)) = 1108 := by rw [round_eq]; norm_num
    rw [List.get?_eq_getElem?]
    simp only [projection, List.getElem?_map,
      List.getElem?_range (by norm_num : (1 : ℕ) < 13), Option.map_some]
    simp [h1, hr]
    rfl

/-- Witness for C7 at concrete inputs: the month-1 recurrence step and the
month-1 emitted point at balance 1000, dca 100. -/
theorem projection_amended_witness :
    (0 : ℕ) < 12 ∧
    projBal 1000 100 (0 + 1) = projBal 1000 100 0 * (1008 / 1000) + 100 :=
  ⟨by decide, (projection_amended 1000 100).2.2.1 0 (by decide)⟩

/-! ### Field characterizations of the ledger derivation -/

lemma deriveAsset_fields (txs : List Tx) (a : Asset) :
    (deriveAsset txs a).invested =
      (if (buyTop txs a.id).length > 0 then sumThb (buyTop txs a.id) else a.invested) ∧
    (deriveAsset txs a).investedUSD =
      (if (buyTop txs a.id).length > 0 then
        (if a.currency = "USD" then some (sumUsd (buyTop txs a.id)) else a.investedUSD)
      else a.investedUSD) ∧
    (deriveAsset txs a).units =
      (if (buyTop txs a.id).length > 0 then
        (if (normCode a.finnomenaCode).isSome then sumUnits (buyTop txs a.id) else a.units)
      else a.units) := by
  unfold deriveAsset
  by_cases h : (buyTop txs a.id).length > 0 <;>
    by_cases h2 : a.subAssets.length > 0 <;> simp [h, h2]

lemma deriveSub_fields (txs : List Tx) (aid : String) (sub : SubAsset) :
    (deriveSub txs aid sub).invested =
      (if (buySub txs aid sub.id).length = 0 then sub.invested
       else sumThb (buySub txs aid sub.id)) ∧
    (deriveSub txs aid sub).investedUSD =
      (if (buySub txs aid sub.id).length = 0 then sub.investedUSD
       else (if sub.currency = "USD" then some (sumUsd (buySub txs aid sub.id)) else none)) ∧
    (deriveSub txs aid sub).qty =
      (if (buySub txs aid sub.id).length = 0 then sub.qty
       else sumQty (buySub txs aid sub.id)) := by
  unfold deriveSub
  by_cases h : (buySub txs aid sub.id).length = 0 <;> simp [h]

lemma buyTop_excludes (txs : List Tx) (aid : String) :
    buyTop txs aid = txs.filter (fun t => t.asset_id == aid && t.sub_asset_id == none &&
      !(t.type == TxType.sell) && !(t.type == TxType.dividend) && !(t.type == TxType.fee)) := by
  unfold buyTop
  apply List.filter_congr
  intro t _
  obtain ⟨tid, taid, tsid, ty, thb, usd, un, q⟩ := t
  cases ty <;> cases hA : (taid == aid) <;> cases hB : (tsid == none) <;> rfl

lemma buySub_excludes (txs : List Tx) (aid subId : String) :
    buySub txs aid subId = txs.filter (fun t => t.asset_id == aid &&
      t.sub_asset_id == some subId &&
      !(t.type == TxType.sell) && !(t.type == TxType.dividend) && !(t.type == TxType.fee)) := by
  unfold buySub
  apply List.filter_congr
  intro t _
  obtain ⟨tid, taid, tsid, ty, thb, usd, un, q⟩ := t
  cases ty <;> cases hA : (taid == aid) <;> cases hB : (tsid == some subId) <;> rfl

/-- C1: For every asset (and sub-asset) with at least one buy transaction
targeting it, the derived `invested` equals the sum of `amount_thb` over
exactly those buy transactions; sell, dividend, and fee transactions are
excluded from the sum; and the derived value is independent of the stored
manual `invested` field. -/
theorem derived_invested_is_buy_sum (assets : List Asset) (txs : List Tx)
    (a : Asset) (sub : SubAsset)
    (h : (buyTop txs a.id).length > 0) (hs : (buySub txs a.id sub.id).length > 0) :
    derivedAssets assets txs = assets.map (deriveAsset txs) ∧
    (deriveAsset txs a).invested = sumThb (buyTop txs a.id) ∧
    buyTop txs a.id = txs.filter (fun t => t.asset_id == a.id && t.sub_asset_id == none &&
      !(t.type == TxType.sell) && !(t.type == TxType.dividend) && !(t.type == TxType.fee)) ∧
    (∀ v : ℚ, (deriveAsset txs { a with invested := v }).invested =
      sumThb (buyTop txs a.id)) ∧
    (deriveSub txs a.id sub).invested = sumThb (buySub txs a.id sub.id) ∧
    buySub txs a.id sub.id = txs.filter (fun t => t.asset_id == a.id &&
      t.sub_asset_id == some sub.id &&
      !(t.type == TxType.sell) && !(t.type == TxType.dividend) && !(t.type == TxType.fee)) ∧
    (∀ v : ℚ, (deriveSub txs a.id { sub with invested := v }).invested =
      sumThb (buySub txs a.id sub.id)) := by
  have hs' : ¬ (buySub txs a.id sub.id).length = 0 := by omega
  refine ⟨rfl, ?_, buyTop_excludes txs a.id, ?_, ?_, buySub_excludes txs a.id sub.id, ?_⟩
  · rw [(deriveAsset_fields txs a).1, if_pos h]
  · intro v
    rw [(deriveAsset_fields txs { a with invested := v }).1]
    exact if_pos h
  · rw [(deriveSub_fields txs a.id sub).1, if_neg hs']
  · intro v
    rw [(deriveSub_fields txs a.id { sub with invested := v }).1]
    exact if_neg hs'

/-- Witness for C1 at concrete inputs: a ledger holding a buy, a sell, a
dividend and a fee for `groupW` plus a buy for its sub-asset `subW`. -/
theorem derived_invested_is_buy_sum_witness :
    (buyTop txsW groupW.id).length > 0 ∧ (buySub txsW groupW.id subW.id).length > 0 ∧
    ((deriveAsset txsW groupW).invested = sumThb (buyTop txsW groupW.id) ∧
      (deriveSub txsW groupW.id subW).invested = sumThb (buySub txsW groupW.id subW.id)) :=
  ⟨by decide, by decide,
    (derived_invested_is_buy_sum [groupW] txsW groupW subW (by decide) (by decide)).2.1,
    (derived_invested_is_buy_sum [groupW] txsW groupW subW
      (by decide) (by decide)).2.2.2.2.1⟩

lemma buyTop_removeTx (txs : List Tx) (aid delId : String) :
    buyTop (removeTx txs delId) aid = (buyTop txs aid).filter (fun t => !(t.id == delId)) := by
  unfold buyTop removeTx
  rw [List.filter_filter, List.filter_filter]
  apply List.filter_congr
  intro t _
  cases h1 : (t.id == delId) <;> simp [h1]

/-- C2: With zero buy transactions targeting it, an asset's (and a
sub-asset's) derived `invested`, `investedUSD` and `units`/`qty` equal the
stored manual fields exactly; deleting the only buy transaction for an
asset reverts its derived invested and units to the manual values on the
next read. -/
theorem zero_buys_fallback (txs1 txs2 : List Tx) (a : Asset) (sub : SubAsset) (t0 : Tx)
    (h1 : (buyTop txs1 a.id).length = 0) (hs : (buySub txs1 a.id sub.id).length = 0)
    (h2 : buyTop txs2 a.id = [t0]) :
    (deriveAsset txs1 a).invested = a.invested ∧
    (deriveAsset txs1 a).investedUSD = a.investedUSD ∧
    (deriveAsset txs1 a).units = a.units ∧
    deriveSub txs1 a.id sub = sub ∧
    (deriveAsset (removeTx txs2 t0.id) a).invested = a.invested ∧
    (deriveAsset (removeTx txs2 t0.id) a).units = a.units ∧
    (deriveAsset (removeTx txs2 t0.id) a).investedUSD = a.investedUSD := by
  have h0 : (buyTop (removeTx txs2 t0.id) a.id).length = 0 := by
    rw [buyTop_removeTx, h2]
    simp
  have h1' : ¬ (buyTop txs1 a.id).length > 0 := by omega
  have h0' : ¬ (buyTop (removeTx txs2 t0.id) a.id).length > 0 := by omega
  refine ⟨?_, ?_, ?_, ?_, ?_, ?_, ?_⟩
  · rw [(deriveAsset_fields txs1 a).1, if_neg h1']
  · rw [(deriveAsset_fields txs1 a).2.1, if_neg h1']
  · rw [(deriveAsset_fields txs1 a).2.2, if_neg h1']
  · unfold deriveSub
    simp [hs]
  · rw [(deriveAsset_fields (removeTx txs2 t0.id) a).1, if_neg h0']
  · rw [(deriveAsset_fields (removeTx txs2 t0.id) a).2.2, if_neg h0']
  · rw [(deriveAsset_fields (removeTx txs2 t0.id) a).2.1, if_neg h0']

/-- Witness for C2 at concrete inputs: a ledger holding only a sell for
`groupW` leaves the manual fields authoritative; a ledger holding exactly
one buy reverts to them after that buy is deleted. -/
theorem zero_buys_fallback_witness :
    (buyTop [txSellG] groupW.id).length = 0 ∧
    (buySub [txSellG] groupW.id subW.id).length = 0 ∧
    buyTop [txBuyG] groupW.id = [txBuyG] ∧
    ((deriveAsset [txSellG] groupW).invested = groupW.invested ∧
      deriveSub [txSellG] groupW.id subW = subW ∧
      (deriveAsset (removeTx [txBuyG] txBuyG.id) groupW).invested = groupW.invested ∧
      (deriveAsset (removeTx [txBuyG] txBuyG.id) groupW).units = groupW.units) :=
  ⟨by decide, by decide, by decide,
    (zero_buys_fallback [txSellG] [txBuyG] groupW subW txBuyG
      (by decide) (by decide) (by decide)).1,
    (zero_buys_fallback [txSellG] [txBuyG] groupW subW txBuyG
      (by decide) (by decide) (by decide)).2.2.2.1,
    (zero_buys_fallback [txSellG] [txBuyG] groupW subW txBuyG
      (by decide) (by decide) (by decide)).2.2.2.2.1,
    (zero_buys_fallback [txSellG] [txBuyG] groupW subW txBuyG
      (by decide) (by decide) (by decide)).2.2.2.2.2.1⟩

/-- Counterexample for C3: `thbManualW` is a THB (non-USD) asset with
manual `investedUSD = some 5`, manual `units = 7` and no fund code; it has
one buy transaction carrying `units = 3`.  The claim says derived
`investedUSD` should be null (non-USD) and derived `units` should be the
ledger sum 3, but the code keeps the stored `some 5` and `7`: a top-level
non-USD asset keeps its manual `investedUSD`, and `units` is only derived
when a fund-code binding exists. -/
theorem derived_usd_units_cex :
    (buyTop [txBuyM] thbManualW.id).length > 0 ∧
    thbManualW.currency ≠ "USD" ∧
    (deriveAsset [txBuyM] thbManualW).investedUSD = some 5 ∧
    (deriveAsset [txBuyM] thbManualW).investedUSD ≠ none ∧
    sumUnits (buyTop [txBuyM] thbManualW.id) = 3 ∧
    (deriveAsset [txBuyM] thbManualW).units = 7 ∧
    (deriveAsset [txBuyM] thbManualW).units ≠ sumUnits (buyTop [txBuyM] thbManualW.id) := by
  have hsum : sumUnits (buyTop [txBuyM] thbManualW.id) = 3 := by
    simp [sumUnits, buyTop, txBuyM, thbManualW]
  refine ⟨by decide, by decide, by decide, by decide, hsum, by decide, ?_⟩
  rw [hsum]
  decide

/-- C3 amended: with at least one buy transaction, a top-level asset's
derived `investedUSD` is the sum of `amount_usd` if its currency is USD and
otherwise keeps the stored manual value; its derived `units` is the ledger
sum only when a fund-code binding exists, otherwise the stored manual
units; a sub-asset's derived `investedUSD` is the sum if its currency is
USD and null otherwise, and its derived `qty` is always the ledger sum. -/
theorem derived_usd_units_amended (txs : List Tx) (a : Asset) (sub : SubAsset)
    (h : (buyTop txs a.id).length > 0) (hs : (buySub txs a.id sub.id).length > 0) :
    (deriveAsset txs a).investedUSD =
      (if a.currency = "USD" then some (sumUsd (buyTop txs a.id)) else a.investedUSD) ∧
    (deriveAsset txs a).units =
      (if (normCode a.finnomenaCode).isSome then sumUnits (buyTop txs a.id) else a.units) ∧
    (deriveSub txs a.id sub).investedUSD =
      (if sub.currency = "USD" then some (sumUsd (buySub txs a.id sub.id)) else none) ∧
    (deriveSub txs a.id sub).qty = sumQty (buySub txs a.id sub.id) := by
  have hs' : ¬ (buySub txs a.id sub.id).length = 0 := by omega
  refine ⟨?_, ?_, ?_, ?_⟩
  · rw [(deriveAsset_fields txs a).2.1, if_pos h]
  · rw [(deriveAsset_fields txs a).2.2, if_pos h]
  · rw [(deriveSub_fields txs a.id sub).2.1, if_neg hs']
  · rw [(deriveSub_fields txs a.id sub).2.2, if_neg hs']

/-- Witness for the amended C3 at concrete inputs: the USD sub-asset `subW`
of `groupW` with its buy transaction in `txsW`. -/
theorem derived_usd_units_amended_witness :
    (buyTop txsW groupW.id).length > 0 ∧ (buySub txsW groupW.id subW.id).length > 0 ∧
    ((deriveSub txsW groupW.id subW).investedUSD =
      (if subW.currency = "USD" then some (sumUsd (buySub txsW groupW.id subW.id)) else none) ∧
     (deriveSub txsW groupW.id subW).qty = sumQty (buySub txsW groupW.id subW.id)) :=
  ⟨by decide, by decide,
    (derived_usd_units_amended txsW groupW subW (by decide) (by decide)).2.2.1,
    (derived_usd_units_amended txsW groupW subW (by decide) (by decide)).2.2.2⟩

/-- Counterexample for C4: `fundGroupW` both carries a fund code present in
`cacheW` and holds the sub-asset `subW` whose symbol "AAPL" is also in
`cacheW` with price 2 and `qty = 3 > 0`.  The claim says `subW` gets
`currentValue = round2 (3 * 2) = 6`, but the code takes the fund-code
branch and leaves every sub-asset untouched at `currentValue = 30`. -/
theorem applyCache_shadowed_sub_cex :
    (normCode fundGroupW.finnomenaCode).bind cacheW = some rowF ∧
    (normCode subW.yahooSymbol).bind cacheW = some rowA ∧
    subW.qty > 0 ∧
    round2 (subW.qty * rowA.price) = 6 ∧
    (applyCacheAsset cacheW fundGroupW).subAssets.map (fun s => s.currentValue) = [30] ∧
    ((30 : ℚ) ≠ 6) ∧
    applyCache [fundGroupW] cacheW = [applyCacheAsset cacheW fundGroupW] := by
  refine ⟨by decide, by decide, by decide, ?_, by decide, by norm_num, rfl⟩
  have : subW.qty * rowA.price = 6 := by norm_num [subW, rowA]
  rw [this]
  rw [round2, round_eq]
  norm_num

/-- C4 amended: the price application is pointwise total — an asset with a
fund-code binding matched in the cache gets `currentValue = units * price`
rounded to 2 decimals only when `units > 0` (otherwise its current value is
untouched) and its nav timestamp set, while its sub-assets are left
untouched (the fund branch shadows them); an asset with no matched
fund-code binding keeps its own fields and has the per-sub-asset rule
applied; a sub-asset whose symbol is matched gets the analogous update, and
one with no matched binding passes through unchanged. -/
theorem applyCache_pointwise_amended (assets : List Asset) (cache : Cache)
    (aM : Asset) (rowM : PriceRow) (aN : Asset) (subM : SubAsset) (rowS : PriceRow)
    (subN : SubAsset)
    (hM : (normCode aM.finnomenaCode).bind cache = some rowM)
    (hN : (normCode aN.finnomenaCode).bind cache = none)
    (hS : (normCode subM.yahooSymbol).bind cache = some rowS)
    (hSN : (normCode subN.yahooSymbol).bind cache = none) :
    applyCache assets cache = assets.map (applyCacheAsset cache) ∧
    (applyCacheAsset cache aM).currentValue =
      (if aM.units > 0 then round2 (aM.units * rowM.price) else aM.currentValue) ∧
    (applyCacheAsset cache aM).navUpdatedAt = some rowM.updated_at ∧
    (applyCacheAsset cache aM).subAssets = aM.subAssets ∧
    (applyCacheAsset cache aN).currentValue = aN.currentValue ∧
    (applyCacheAsset cache aN).navUpdatedAt = aN.navUpdatedAt ∧
    (applyCacheAsset cache aN).subAssets = aN.subAssets.map (applyCacheSub cache) ∧
    (applyCacheSub cache subM).currentValue =
      (if subM.qty > 0 then round2 (subM.qty * rowS.price) else subM.currentValue) ∧
    (applyCacheSub cache subM).priceDate = rowS.price_date ∧
    (applyCacheSub cache subM).priceUpdatedAt = some rowS.updated_at ∧
    applyCacheSub cache subN = subN := by
  refine ⟨rfl, ?_, ?_, ?_, ?_, ?_, ?_, ?_, ?_, ?_, ?_⟩
  · simp [applyCacheAsset, hM]
  · simp [applyCacheAsset, hM]
  · simp [applyCacheAsset, hM]
  · by_cases hl : aN.subAssets.length > 0 <;> simp [applyCacheAsset, hN, hl]
  · by_cases hl : aN.subAssets.length > 0 <;> simp [applyCacheAsset, hN, hl]
  · by_cases hl : aN.subAssets.length > 0
    · simp [applyCacheAsset, hN, hl]
    · have h3 : aN.subAssets = [] := List.eq_nil_of_length_eq_zero (by omega)
      simp [applyCacheAsset, hN, hl, h3]
  · simp [applyCacheSub, hS]
  · simp [applyCacheSub, hS]
  · simp [applyCacheSub, hS]
  · simp [applyCacheSub, hSN]

/-- Witness for the amended C4 at concrete inputs: `cacheW` applied to the
fund-matched `fundGroupW`, the unbound `cashW`, the symbol-matched `subW`
and the unbound `plainSubW`. -/
theorem applyCache_pointwise_amended_witness :
    (normCode fundGroupW.finnomenaCode).bind cacheW = some rowF ∧
    (normCode cashW.finnomenaCode).bind cacheW = none ∧
    (normCode subW.yahooSymbol).bind cacheW = some rowA ∧
    (normCode plainSubW.yahooSymbol).bind cacheW = none ∧
    ((applyCacheAsset cacheW fundGroupW).navUpdatedAt = some rowF.updated_at ∧
      (applyCacheAsset cacheW cashW).currentValue = cashW.currentValue ∧
      (applyCacheSub cacheW subW).priceUpdatedAt = some rowA.updated_at ∧
      applyCacheSub cacheW plainSubW = plainSubW) := by
  have H := applyCache_pointwise_amended [fundGroupW] cacheW fundGroupW rowF cashW
    subW rowA plainSubW (by decide) (by decide) (by decide) (by decide)
  exact ⟨by decide, by decide, by decide, by decide,
    H.2.2.1, H.2.2.2.2.1, H.2.2.2.2.2.2.2.2.2.1, H.2.2.2.2.2.2.2.2.2.2⟩

end Portfolio
